import Mathlib

/-
  Verification development for the AI-RPG engine (src/game.py).

  The Python source is shallowly embedded: Python dict-based records become
  structures, `random.randint` / `random.choice` / `random.random` draws are
  read from explicit oracle streams, Python integers are Lean `Int`/`Nat`,
  and code paths that raise a Python exception return `Except PyError`.

  String handling is implemented structurally over `List Char` (with the
  same semantics as the Python `str` operations the source uses: `split`,
  `strip`, `lower`, `startswith`, slicing, `in`), so that every operation
  evaluates inside the kernel. Case folding is ASCII (the source's
  `str.lower()` restricted to the ASCII range, which covers every literal
  the engine compares).
-/

deriving instance DecidableEq for Except

namespace AIRPG

/-! ## Python string helpers -/

/-- Split a character list at the first occurrence of `sub`:
`some (before, after)`, or `none` when `sub` does not occur. -/
def splitFirst (sub : List Char) : List Char → Option (List Char × List Char)
  | [] => none
  | c :: cs =>
    if sub.isPrefixOf (c :: cs) then some ([], (c :: cs).drop sub.length)
    else
      match splitFirst sub cs with
      | some (pre, post) => some (c :: pre, post)
      | none => none

/-- Python `sub in s` for a non-empty `sub`. -/
def pyContains (sub s : String) : Bool :=
  (splitFirst sub.data s.data).isSome

/-- Python `s.split(sep)` on character lists, fuelled (each step consumes at
least the non-empty separator, so `s.length + 1` fuel is always enough). -/
def chSplitOnAux (sep : List Char) : Nat → List Char → List (List Char)
  | 0, s => [s]
  | fuel + 1, s =>
    match splitFirst sep s with
    | none => [s]
    | some (pre, post) => pre :: chSplitOnAux sep fuel post

/-- Python `s.split(sep)` for a non-empty separator. -/
def pySplitOn (sep s : String) : List String :=
  (chSplitOnAux sep.data (s.data.length + 1) s.data).map fun l => String.mk l

def dropWs : List Char → List Char
  | [] => []
  | c :: cs => if c.isWhitespace then dropWs cs else c :: cs

/-- Python `s.strip()` (on the whitespace characters occurring in this
development: space, tab, newline, carriage return). -/
def pyStrip (s : String) : String :=
  String.mk ((dropWs ((dropWs s.data).reverse)).reverse)

/-- ASCII `str.lower()` on one character. -/
def lowerChar (c : Char) : Char :=
  if 65 ≤ c.toNat ∧ c.toNat ≤ 90 then Char.ofNat (c.toNat + 32) else c

/-- Python `s.lower()` (ASCII range). -/
def pyLower (s : String) : String :=
  String.mk (s.data.map lowerChar)

/-- Python `s.startswith(p)`. -/
def pyStartsWith (s p : String) : Bool :=
  p.data.isPrefixOf s.data

/-- Python `s[n:]` (slicing by code points). -/
def strDrop (s : String) (n : Nat) : String :=
  String.mk (s.data.drop n)

/-- Numeric value of a digit run, as Python `int()` parses it. -/
def digitsVal (cs : List Char) : Nat :=
  cs.foldl (fun a c => a * 10 + (c.toNat - 48)) 0

/-- `re.search(r'\d+', s)`: the first maximal digit run in `s`. -/
def firstNatAux : List Char → Option Nat
  | [] => none
  | c :: cs =>
    if c.isDigit then some (digitsVal (c :: cs.takeWhile Char.isDigit))
    else firstNatAux cs

def firstNat (s : String) : Option Nat :=
  firstNatAux s.data

/-- `re.search(r'\+(\d+)', s)`: the digit run following the first `+` that
is immediately followed by at least one digit; the captured group. -/
def plusNatAux : List Char → Option Nat
  | [] => none
  | c :: cs =>
    if c = '+' then
      match cs.takeWhile Char.isDigit with
      | [] => plusNatAux cs
      | d :: ds => some (digitsVal (d :: ds))
    else plusNatAux cs

def plusNat (s : String) : Option Nat :=
  plusNatAux s.data

def digitChar (n : Nat) : Char :=
  Char.ofNat (48 + n)

/-- Decimal rendering of a natural number, fuelled (`n + 1` fuel always
suffices). Matches Python `str(n)`. -/
def natToStrAux : Nat → Nat → List Char
  | 0, _ => []
  | fuel + 1, n =>
    if n < 10 then [digitChar n]
    else natToStrAux fuel (n / 10) ++ [digitChar (n % 10)]

def natToStr (n : Nat) : String :=
  String.mk (natToStrAux (n + 1) n)

/-- Python `str(i)` for an integer. -/
def intToStr (i : Int) : String :=
  if i < 0 then "-" ++ natToStr i.natAbs else natToStr i.natAbs

/-- `re.sub(r'<think>[\s\S]*?<\/think>\s*', '', s)` from
`generate_ai_response`: repeatedly delete from a `<think>` to the first
following `</think>` plus trailing whitespace. The fuel argument bounds the
number of deletions; `s.length` is always enough since each deletion
consumes at least one character. -/
def removeThinkAux : Nat → List Char → List Char
  | 0, s => s
  | fuel + 1, s =>
    match splitFirst "<think>".data s with
    | none => s
    | some (pre, rest) =>
      match splitFirst "</think>".data rest with
      | none => s
      | some (_, post) => pre ++ removeThinkAux fuel (dropWs post)

def removeThink (s : String) : String :=
  String.mk (removeThinkAux s.data.length s.data)

/-! ## Random oracle

Draws are read from explicit streams. `nats` feeds `random.randint` and
`random.choice` (reduced modulo the range size, so any stream is a valid
sequence of draws). `cents` feeds `random.random()`: an entry `c`
represents a draw `r ∈ [0, 1)` with `c = ⌊100·r⌋ ∈ [0, 99]`. Every
`random.random()` comparison in the source has the form `r < k/100` with
`k : Nat` (thresholds 0.25, 0.6, 0.5 and `0.6 + turn_count/100`), and
`r < k/100 ↔ ⌊100·r⌋ < k`, so comparing `c < k` is an exact image of the
source's branching. -/

structure RNG where
  nats : List Nat
  cents : List Nat
deriving Repr, DecidableEq

def RNG.nextNat : RNG → Nat × RNG
  | ⟨[], cs⟩ => (0, ⟨[], cs⟩)
  | ⟨n :: ns, cs⟩ => (n, ⟨ns, cs⟩)

/-- One `random.random()` draw, as the centile `⌊100·r⌋`. -/
def RNG.nextCent : RNG → Nat × RNG
  | ⟨ns, []⟩ => (0, ⟨ns, []⟩)
  | ⟨ns, c :: cs⟩ => (c, ⟨ns, cs⟩)

/-- `random.randint(a, b)` (inclusive on both ends, `a ≤ b` in all call
sites of the source): the drawn value lies in `[a, b]`. -/
def randint (a b : Nat) (g : RNG) : Nat × RNG :=
  (a + (g.nextNat).1 % (b + 1 - a), (g.nextNat).2)

/-! ## Data model -/

structure Item where
  name : String
  type : String
  effect : String
  description : String
deriving Repr, DecidableEq

structure Enemy where
  name : String
  difficulty : Nat
  health : Int
  attack : Nat
  defense : Nat
  description : String
deriving Repr, DecidableEq

structure Location where
  name : String
  type : String
  description : String
deriving Repr, DecidableEq

structure Player where
  name : String
  health : Int
  max_health : Nat
  attack : Nat
  defense : Nat
  inventory : List Item
  skills : List String
deriving Repr, DecidableEq

structure WorldData where
  name : String
  description : String
  theme : String
  locations : List Location
  enemies : List Enemy
  items : List Item
deriving Repr, DecidableEq

structure GameState where
  world : WorldData
  knowledge_base : List String
  player : Player
  current_location : String
  turn_count : Nat
  in_combat : Bool
  current_enemy : Option Enemy
deriving Repr, DecidableEq

/-- A Python exception escaping the engine. -/
inductive PyError where
  | typeError (msg : String)
deriving Repr, DecidableEq

/-! ## Registry lookups (case-insensitive first match, as the `for` loops in
`start_combat`, `find_item`, `change_location`, `use_item`) -/

def lookupEnemy (es : List Enemy) (name : String) : Option Enemy :=
  es.find? (fun e => pyLower e.name == pyLower name)

def lookupItem (its : List Item) (name : String) : Option Item :=
  its.find? (fun i => pyLower i.name == pyLower name)

def lookupLocation (ls : List Location) (name : String) : Option Location :=
  ls.find? (fun l => pyLower l.name == pyLower name)

/-! ## Knowledge base -/

/-- `add_to_knowledge_base`: prefix the event with the turn number, append,
then keep only the last 50 entries (`self.knowledge_base[-50:]`). -/
def add_to_knowledge_base (s : GameState) (event : String) : GameState :=
  let formatted := "Turn " ++ natToStr s.turn_count ++ ": " ++ event
  let kb := s.knowledge_base ++ [formatted]
  let kb := if 50 < kb.length then kb.drop (kb.length - 50) else kb
  { s with knowledge_base := kb }

/-! ## Directive dispatch targets -/

/-- The generic enemy `start_combat` builds on a registry miss, given the
drawn difficulty. -/
def mkDefaultEnemy (enemy_name : String) (difficulty : Nat) : Enemy :=
  { name := enemy_name
    difficulty := difficulty
    health := (20 * difficulty : Nat)
    attack := 5 + difficulty * 2
    defense := 2 + difficulty
    description := "A mysterious " ++ enemy_name ++ "." }

/-- `start_combat`: resolve the enemy name against `world_data["enemies"]`;
on a miss synthesize a generic enemy (without registering it). The combat
session holds a copy of the record (`enemy.copy()`); the registry is never
modified by this function. -/
def start_combat (s : GameState) (g : RNG) (enemy_name : String) :
    GameState × RNG :=
  match lookupEnemy s.world.enemies enemy_name with
  | some e =>
    let s := { s with in_combat := true, current_enemy := some e }
    (add_to_knowledge_base s ("Encountered and fought " ++ e.name), g)
  | none =>
    let d := (randint 1 (min 10 (s.turn_count / 5 + 1)) g).1
    let g1 := (randint 1 (min 10 (s.turn_count / 5 + 1)) g).2
    let e := mkDefaultEnemy enemy_name d
    let s := { s with in_combat := true, current_enemy := some e }
    (add_to_knowledge_base s ("Encountered and fought " ++ e.name), g1)

/-- The generic item `find_item` builds on a registry miss. -/
def mkDefaultItem (item_name : String) : Item :=
  { name := item_name
    type := "misc"
    effect := "Unknown"
    description := "A mysterious " ++ item_name ++ "." }

/-- `find_item`: resolve the item name against `world_data["items"]`; on a
miss synthesize a generic item and append it to the registry. Either way the
resolved item is appended to the player's inventory and the find is logged. -/
def find_item (s : GameState) (item_name : String) : GameState :=
  match lookupItem s.world.items item_name with
  | some it =>
    let s := { s with
      player := { s.player with inventory := s.player.inventory ++ [it] } }
    add_to_knowledge_base s ("Found " ++ it.name)
  | none =>
    let it := mkDefaultItem item_name
    let s := { s with
      world := { s.world with items := s.world.items ++ [it] }
      player := { s.player with inventory := s.player.inventory ++ [it] } }
    add_to_knowledge_base s ("Found " ++ it.name)

/-- `change_location`: set `current_location`, then resolve the name against
`world_data["locations"]`. On a miss the source draws a location type with
`random.choice` and then calls
`self.generate_ai_response(prompt, system_prompt, max_tokens=200)`;
`generate_ai_response` has no `max_tokens` parameter, so this call raises
`TypeError` before any description is produced, and `change_location` has no
handler for it. -/
def change_location (s : GameState) (g : RNG) (location_name : String) :
    Except PyError (GameState × RNG) :=
  let old := s.current_location
  let s := { s with current_location := location_name }
  match lookupLocation s.world.locations location_name with
  | some _ =>
    .ok (add_to_knowledge_base s
      ("Traveled from " ++ old ++ " to " ++ location_name), g)
  | none =>
    let _ := g.nextNat
    .error (.typeError
      "generate_ai_response() got an unexpected keyword argument 'max_tokens'")

/-! ## Directive interpreter -/

/-- Payload extraction in `process_response_tags`:
`parts = response.split(tag); if len(parts) > 1:
payload = parts[1].strip().split("\n")[0].strip()`. Whenever the tag occurs
in the response the split yields at least two parts, so the payload is
produced (possibly empty) and the handler fires. -/
def payloadOf (tag response : String) : Option String :=
  match pySplitOn tag response with
  | _ :: p :: _ =>
    some (match pySplitOn "\n" (pyStrip p) with
          | q :: _ => pyStrip q
          | [] => "")
  | _ => none

/-- `process_response_tags`: dispatch the four directive tags in source
order ([COMBAT], [ITEM], [LOCATION], [EVENT]); each fires independently
whenever its tag occurs. -/
def process_response_tags (s : GameState) (g : RNG) (response : String) :
    Except PyError (GameState × RNG) :=
  let p1 :=
    match payloadOf "[COMBAT]" response with
    | some n => start_combat s g n
    | none => (s, g)
  let s1 :=
    match payloadOf "[ITEM]" response with
    | some n => find_item p1.1 n
    | none => p1.1
  match
    (match payloadOf "[LOCATION]" response with
     | some n => change_location s1 p1.2 n
     | none => .ok (s1, p1.2)) with
  | .error err => .error err
  | .ok p2 =>
    let s3 :=
      match payloadOf "[EVENT]" response with
      | some d => add_to_knowledge_base p2.1 d
      | none => p2.1
    .ok (s3, p2.2)

/-- `remove_tags`: for each of the four tags, split the text on the tag; if
the first trailing part contains a newline, delete up to and including that
newline (removing the payload line); rejoin without the tag markers;
finally strip the result. -/
def remove_tags (text : String) : String :=
  let step := fun (t tag : String) =>
    match pySplitOn tag t with
    | p0 :: p1 :: rest =>
      let p1 :=
        match pySplitOn "\n" p1 with
        | _ :: r :: rs => String.intercalate "\n" (r :: rs)
        | _ => p1
      String.join (p0 :: p1 :: rest)
    | _ => t
  pyStrip (["[COMBAT]", "[ITEM]", "[LOCATION]", "[EVENT]"].foldl step text)

/-- `process_player_action` (state part): increment the turn counter, then
interpret the directive tags of the collaborator's response. -/
def process_player_action (s : GameState) (g : RNG) (response : String) :
    Except PyError (GameState × RNG) :=
  let s := { s with turn_count := s.turn_count + 1 }
  process_response_tags s g response

/-! ## Narrative collaborator boundary -/

/-- Outcome of the `ollama` call inside `generate_ai_response`. -/
inductive AIOutcome where
  | success (text : String)
  | responseError (err : String) (status : Nat)
  | otherError (msg : String)
deriving Repr, DecidableEq

/-- `generate_ai_response(prompt, system_prompt)`: on success the response
text with think-blocks stripped; every failure is caught and converted to an
error string (this function never raises). -/
def generate_ai_response (outcome : AIOutcome) : String :=
  match outcome with
  | .success t => removeThink t
  | .responseError e _ => "Error communicating with AI model: " ++ e
  | .otherError _ =>
    "Error communicating with AI model. Please ensure Ollama is running."

/-! ## Item use -/

/-- `use_item`: resolve the name in the inventory (case-insensitive first
match); consumables are removed and, when their effect text mentions
heal/health, heal by the first integer in the text (default 20) clamped to
`max_health`; weapons/armor stay in the inventory and add a `+N` bonus
(defaults 5 / 3) permanently to attack/defense. Returns the new state and
the printed lines. -/
def use_item (s : GameState) (item_name : String) : GameState × List String :=
  match s.player.inventory.findIdx?
      (fun it => pyLower it.name == pyLower item_name) with
  | none =>
    (s, ["You don't have a " ++ item_name ++ " in your inventory."])
  | some idx =>
    match s.player.inventory[idx]? with
    | none => (s, [])
    | some item =>
      if pyLower item.type == "consumable" then
        let inv := s.player.inventory.eraseIdx idx
        if pyContains "heal" (pyLower item.effect)
            || pyContains "health" (pyLower item.effect) then
          let heal_amount := (firstNat item.effect).getD 20
          let old_health := s.player.health
          let new_health :=
            min (s.player.max_health : Int) (s.player.health + heal_amount)
          let actual_heal := new_health - old_health
          ({ s with player :=
              { s.player with inventory := inv, health := new_health } },
           ["You used " ++ item.name ++ " and recovered "
              ++ intToStr actual_heal ++ " health!"])
        else
          ({ s with player := { s.player with inventory := inv } },
           ["You used " ++ item.name ++ ". " ++ item.effect])
      else if pyLower item.type == "weapon" then
        let attack_bonus := (plusNat item.effect).getD 5
        ({ s with player :=
            { s.player with attack := s.player.attack + attack_bonus } },
         ["You equip the " ++ item.name ++ ".",
          "Your attack increases from " ++ natToStr s.player.attack
            ++ " to " ++ natToStr (s.player.attack + attack_bonus) ++ "!"])
      else if pyLower item.type == "armor" then
        let defense_bonus := (plusNat item.effect).getD 3
        ({ s with player :=
            { s.player with defense := s.player.defense + defense_bonus } },
         ["You equip the " ++ item.name ++ ".",
          "Your defense increases from " ++ natToStr s.player.defense
            ++ " to " ++ natToStr (s.player.defense + defense_bonus) ++ "!"])
      else
        (s, ["You use " ++ item.name ++ ". Nothing obvious happens."])

/-! ## Combat state machine -/

/-- `player_attack`: roll `randint(attack // 2, attack)`, damage
`max(1, base - enemy_defense // 2)` applied to the session enemy; with
probability 0.25 a critical bonus of `damage // 2` is also applied. -/
def player_attack (s : GameState) (e : Enemy) (g : RNG) : GameState × RNG :=
  let base := (randint (s.player.attack / 2) s.player.attack g).1
  let g1 := (randint (s.player.attack / 2) s.player.attack g).2
  let damage := max 1 (base - e.defense / 2)
  let e1 := { e with health := e.health - damage }
  let c := (g1.nextCent).1
  let g2 := (g1.nextCent).2
  let e2 :=
    if c < 25 then { e1 with health := e1.health - (damage / 2 : Nat) }
    else e1
  ({ s with current_enemy := some e2 }, g2)

/-- `enemy_attack`: roll `randint(enemy_attack // 2, enemy_attack)`, damage
`max(1, base - defense // 2)` applied to the player (no clamp at zero). -/
def enemy_attack (s : GameState) (e : Enemy) (g : RNG) : GameState × RNG :=
  let base := (randint (e.attack / 2) e.attack g).1
  let g1 := (randint (e.attack / 2) e.attack g).2
  let damage := max 1 (base - s.player.defense / 2)
  ({ s with player :=
      { s.player with health := s.player.health - damage } }, g1)

/-- `player_defend`: boost defense by `defense // 2`, heal
`max_health // 20` clamped to `max_health`, take a reduced-range counter
`randint(enemy_attack // 3, enemy_attack // 2)` against the boosted
defense, then revert the defense boost. -/
def player_defend (s : GameState) (e : Enemy) (g : RNG) : GameState × RNG :=
  let temp_defense := s.player.defense / 2
  let defense1 := s.player.defense + temp_defense
  let heal_amount := s.player.max_health / 20
  let health1 :=
    min (s.player.max_health : Int) (s.player.health + heal_amount)
  let base := (randint (e.attack / 3) (e.attack / 2) g).1
  let g1 := (randint (e.attack / 3) (e.attack / 2) g).2
  let damage := max 1 (base - defense1 / 2)
  ({ s with player :=
      { s.player with
        health := health1 - damage
        defense := defense1 - temp_defense } }, g1)

/-- `attempt_flee`: success with probability `0.6 + turn_count / 100`. The
success branch sets `current_enemy = None` and then evaluates
`self.current_enemy['name']` inside the log message, which raises
`TypeError` (`None` is not subscriptable) before anything is logged. On
failure the enemy lands a punitive hit:
`max(2, randint(enemy_attack // 2, enemy_attack) - defense // 3)`. -/
def attempt_flee (s : GameState) (e : Enemy) (g : RNG) :
    Except PyError (GameState × RNG) :=
  let c := (g.nextCent).1
  let g1 := (g.nextCent).2
  if c < 60 + s.turn_count then
    .error (.typeError "'NoneType' object is not subscriptable")
  else
    let base := (randint (e.attack / 2) e.attack g1).1
    let g2 := (randint (e.attack / 2) e.attack g1).2
    let damage := max 2 (base - s.player.defense / 3)
    .ok ({ s with player :=
      { s.player with health := s.player.health - damage } }, g2)

/-- The fixed reward item of `generate_combat_reward`. -/
def rewardItem : Item :=
  { name := "Health Potion"
    type := "consumable"
    effect := "Restores 50 health"
    description := "A small vial containing a red liquid that heals wounds." }

def generate_combat_reward (s : GameState) : GameState :=
  { s with player :=
      { s.player with inventory := s.player.inventory ++ [rewardItem] } }

/-- `resolve_combat`: on victory, 60% chance of the reward item, then heal
`max_health // 10` clamped; on defeat, revive at `max_health // 4` and,
when the inventory is non-empty, a 50% chance to lose one uniformly chosen
item. Both branches log and clear the combat session. -/
def resolve_combat (s : GameState) (e : Enemy) (g : RNG)
    (player_won : Bool) : GameState × RNG :=
  if player_won then
    let c := (g.nextCent).1
    let g1 := (g.nextCent).2
    let s1 := if c < 60 then generate_combat_reward s else s
    let heal_amount := s1.player.max_health / 10
    let new_health :=
      min (s1.player.max_health : Int) (s1.player.health + heal_amount)
    let s2 := { s1 with player := { s1.player with health := new_health } }
    let s3 := add_to_knowledge_base s2 ("Defeated " ++ e.name ++ " in combat")
    ({ s3 with in_combat := false, current_enemy := none }, g1)
  else
    let s1 := { s with player :=
      { s.player with health := (s.player.max_health / 4 : Nat) } }
    let pr :=
      if s1.player.inventory.isEmpty then (s1, g)
      else
        let c := (g.nextCent).1
        let g1 := (g.nextCent).2
        if c < 50 then
          let n := (g1.nextNat).1
          let g2 := (g1.nextNat).2
          match s1.player.inventory[n % s1.player.inventory.length]? with
          | some lost =>
            ({ s1 with player :=
                { s1.player with
                  inventory := s1.player.inventory.erase lost } }, g2)
          | none => (s1, g2)
        else (s1, g1)
    let s4 := add_to_knowledge_base pr.1
      ("Was defeated by " ++ e.name ++ " but mysteriously revived")
    ({ s4 with in_combat := false, current_enemy := none }, pr.2)

/-- The tail of `combat_turn` after the player's action: resolve victory
when the enemy is down, otherwise let the enemy attack and resolve defeat
when the player is down. -/
def combat_turn_tail (s : GameState) (g : RNG) :
    Except PyError (GameState × RNG) :=
  match s.current_enemy with
  | none => .error (.typeError "'NoneType' object is not subscriptable")
  | some e =>
    if e.health ≤ 0 then .ok (resolve_combat s e g true)
    else
      let s1 := (enemy_attack s e g).1
      let g1 := (enemy_attack s e g).2
      if s1.player.health ≤ 0 then .ok (resolve_combat s1 e g1 false)
      else .ok (s1, g1)

/-- `combat_turn`: dispatch the player's combat action (attack / use /
defend / flee; an unrecognized action returns with no state change and no
enemy turn), then run the post-action checks and the enemy turn. -/
def combat_turn (s : GameState) (g : RNG) (action : String) :
    Except PyError (GameState × RNG) :=
  match s.current_enemy with
  | none => .error (.typeError "'NoneType' object is not subscriptable")
  | some e =>
    let la := pyLower action
    if la == "attack" || la == "a" then
      combat_turn_tail (player_attack s e g).1 (player_attack s e g).2
    else if pyStartsWith la "use " then
      let item_name := pyStrip (strDrop action 4)
      combat_turn_tail (use_item s item_name).1 g
    else if la == "defend" || la == "d" then
      combat_turn_tail (player_defend s e g).1 (player_defend s e g).2
    else if la == "flee" || la == "f" || la == "run" then
      match attempt_flee s e g with
      | .error err => .error err
      | .ok p => combat_turn_tail p.1 p.2
    else
      .ok (s, g)

/-! ## Concrete fixtures -/

def baseWorld : WorldData :=
  { name := "W", description := "A world.", theme := "Fantasy",
    locations := [], enemies := [], items := [] }

def basePlayer : Player :=
  { name := "P", health := 100, max_health := 100, attack := 10,
    defense := 4, inventory := [], skills := [] }

def baseState : GameState :=
  { world := baseWorld, knowledge_base := [], player := basePlayer,
    current_location := "Start", turn_count := 0, in_combat := false,
    current_enemy := none }

def wolf : Enemy :=
  { name := "Wolf", difficulty := 2, health := 50, attack := 9, defense := 3,
    description := "A grey wolf." }

/-- A combat state: fighting the wolf. -/
def wolfState : GameState :=
  { baseState with in_combat := true, current_enemy := some wolf }

def darkCave : Location :=
  { name := "Dark Cave", type := "dungeon", description := "A cold cave." }

/-- A state whose location registry knows "Dark Cave". -/
def caveState : GameState :=
  { baseState with world := { baseWorld with locations := [darkCave] } }

def c5Text : String := "You see a cave. [LOCATION] Dark Cave\nIt is cold."

def c6Response : String := "A monster appears! [COMBAT]"

/-- The state after processing `c6Response` from `baseState`: combat has
started against a synthesized enemy whose name is the empty payload. -/
def c6Result : GameState :=
  { baseState with
    in_combat := true
    current_enemy := some (mkDefaultEnemy "" 1)
    knowledge_base := ["Turn 0: Encountered and fought "] }

/-- The ok-state of a run, when it did not raise. -/
def okState : Except PyError (GameState × RNG) → Option GameState
  | .ok (s, _) => some s
  | .error _ => none

/-- The player's health after a run (an arbitrary default on error). -/
def resultPlayerHealth : Except PyError (GameState × RNG) → Int
  | .ok (s, _) => s.player.health
  | .error _ => 0

/-- Following the claim's words (not the source): the possible post-turn
player healths a defend action allows if the enemy's counter-attack were
folded into the defend resolution alone — heal `max_health // 20`, then
exactly one hit `max(1, roll - boosted_defense // 2)` with `roll` drawn
from `randint(enemy.attack // 3, enemy.attack // 2)`. -/
def defendClaimHealths (p : Player) (e : Enemy) : List Int :=
  let defense1 := p.defense + p.defense / 2
  let healed := min (p.max_health : Int) (p.health + p.max_health / 20)
  (List.range (e.attack / 2 + 1 - e.attack / 3)).map
    (fun k => healed - max 1 (e.attack / 3 + k - defense1 / 2))

/-- The enemy of a live combat session, if any, has positive health. -/
def enemyAlive : Option Enemy → Prop
  | none => True
  | some e => 0 < e.health

instance : (o : Option Enemy) → Decidable (enemyAlive o)
  | none => .isTrue trivial
  | some e => inferInstanceAs (Decidable (0 < e.health))

/-- The health part of the state invariant of §3: the player's health lies
in `0..max_health`, and any live combat session's enemy has positive
health (true of every enemy the engine puts into a session from a
well-formed registry, and preserved by every combat turn). -/
def stateInv (s : GameState) : Prop :=
  0 ≤ s.player.health ∧ s.player.health ≤ (s.player.max_health : Int) ∧
  enemyAlive s.current_enemy

instance (s : GameState) : Decidable (stateInv s) :=
  inferInstanceAs (Decidable (_ ∧ _ ∧ _))

/-- The player fields exploration actions must not change: health and
max_health as a pair. -/
def healthMax (s : GameState) : Int × Nat :=
  (s.player.health, s.player.max_health)

def healPotion50 : Item :=
  { name := "Potion", type := "consumable", effect := "Heal 50 health",
    description := "A potion." }

def sword7 : Item :=
  { name := "Sword", type := "weapon", effect := "+7 damage",
    description := "A sword." }

def boostClub : Item :=
  { name := "Club", type := "weapon", effect := "Boost 3",
    description := "A club." }

def boostPlate : Item :=
  { name := "Plate", type := "armor", effect := "Boost 3",
    description := "A plate." }

/-! ## General helper lemmas -/

theorem chSplitOnAux_ne_nil (sep : List Char) (fuel : Nat) (s : List Char) :
    chSplitOnAux sep fuel s ≠ [] := by
  cases fuel with
  | zero => simp [chSplitOnAux]
  | succ f =>
    unfold chSplitOnAux
    cases splitFirst sep s with
    | none => simp
    | some pp => simp

theorem chSplitOnAux_succ (sep : List Char) (n : Nat) (s : List Char) :
    chSplitOnAux sep (n + 1) s =
      match splitFirst sep s with
      | none => [s]
      | some (pre, post) => pre :: chSplitOnAux sep n post := rfl

/-- When `sep` occurs in `s`, Python's split produces at least two parts. -/
theorem pySplitOn_two_parts (sep s : String) (h : pyContains sep s = true) :
    ∃ a b l, pySplitOn sep s = a :: b :: l := by
  unfold pyContains at h
  unfold pySplitOn
  rw [chSplitOnAux_succ]
  cases hx : splitFirst sep.data s.data with
  | none => rw [hx] at h; simp at h
  | some pp =>
    obtain ⟨pre, post⟩ := pp
    have hred : (match some (pre, post) with
        | none => [s.data]
        | some (pre, post) => pre :: chSplitOnAux sep.data s.data.length post)
        = pre :: chSplitOnAux sep.data s.data.length post := rfl
    rw [hred]
    cases hz : chSplitOnAux sep.data s.data.length post with
    | nil => exact absurd hz (chSplitOnAux_ne_nil _ _ _)
    | cons a t =>
      exact ⟨String.mk pre, String.mk a, t.map (fun l => String.mk l), rfl⟩

/-! ## C5 — tag stripping example -/

/-- C5 counterexample: for the input
`"You see a cave. [LOCATION] Dark Cave\nIt is cold."` the displayed
(tag-stripped) text does NOT equal `"You see a cave.\nIt is cold."`:
removing the payload line consumes its newline, so the surrounding lines
are joined by the space that preceded the tag. -/
theorem C5_display_text_counterexample :
    remove_tags c5Text ≠ "You see a cave.\nIt is cold." := by decide

/-- C5 amended: for that input the displayed text equals
`"You see a cave. It is cold."` (single space, no newline), and — when a
record named "Dark Cave" exists in the registry so that the location
synthesis path is not taken — processing the tags sets the current
location to "Dark Cave" and logs the travel. -/
theorem C5_display_and_location :
    remove_tags c5Text = "You see a cave. It is cold." ∧
    process_response_tags caveState ⟨[], []⟩ c5Text =
      .ok ({ caveState with
              current_location := "Dark Cave"
              knowledge_base := ["Turn 0: Traveled from Start to Dark Cave"] },
           ⟨[], []⟩) := by decide

/-! ## C6 — empty directive payload -/

/-- C6 counterexample: a recognized tag whose payload is empty after the
split is NOT silently skipped. For `"A monster appears! [COMBAT]"` (tag is
the last token), the handler fires with the empty string: combat starts
against a synthesized enemy named `""` and a knowledge-log entry is
appended. -/
theorem C6_empty_payload_counterexample :
    process_response_tags baseState ⟨[0], []⟩ c6Response =
      .ok (c6Result, ⟨[], []⟩) ∧
    c6Result.in_combat = true ∧
    baseState.in_combat = false ∧
    c6Result.knowledge_base ≠ baseState.knowledge_base := by decide

/-- C6 amended: whenever a recognized tag occurs in the response, the
split's guard `len(parts) > 1` is satisfied and the directive handler is
invoked with the (possibly empty) payload; in particular a trailing
`[COMBAT]` with nothing after it starts combat with an enemy synthesized
from the empty name, rather than being skipped. No exception surfaces. -/
theorem C6_empty_payload_dispatches :
    (∀ response : String, pyContains "[COMBAT]" response = true →
      (payloadOf "[COMBAT]" response).isSome = true) ∧
    payloadOf "[COMBAT]" c6Response = some "" ∧
    okState (process_response_tags baseState ⟨[0], []⟩ c6Response) =
      some c6Result := by
  refine ⟨?_, by decide, by decide⟩
  intro response h
  obtain ⟨a, b, l, hsplit⟩ := pySplitOn_two_parts _ _ h
  unfold payloadOf
  rw [hsplit]
  rfl

/-- Dispatch of the literal action "flee" in `combat_turn`. -/
theorem combat_turn_flee (s : GameState) (e : Enemy) (g : RNG)
    (hce : s.current_enemy = some e) :
    combat_turn s g "flee" =
      match attempt_flee s e g with
      | .error err => .error err
      | .ok p => combat_turn_tail p.1 p.2 := by
  unfold combat_turn
  rw [hce]
  rfl

/-- Dispatch of the literal action "defend" in `combat_turn`. -/
theorem combat_turn_defend (s : GameState) (e : Enemy) (g : RNG)
    (hce : s.current_enemy = some e) :
    combat_turn s g "defend" =
      combat_turn_tail (player_defend s e g).1 (player_defend s e g).2 := by
  unfold combat_turn
  rw [hce]
  rfl

/-- A `find_item` hit leaves the item registry unchanged. -/
theorem find_item_registry_stable (s : GameState) (name : String) (it : Item)
    (h : lookupItem s.world.items name = some it) :
    (find_item s name).world.items = s.world.items := by
  unfold find_item
  rw [h]
  rfl

/-! ## C4 — lookup-or-synthesize registries -/

/-- C4 counterexample: on a registry miss, `start_combat` synthesizes an
enemy for the session but does NOT append it to the enemy collection, and
a second resolution of the same name re-synthesizes (here with different
stats) instead of finding the first record. -/
theorem C4_enemy_registry_counterexample :
    (start_combat baseState ⟨[5], []⟩ "Shade").1.world.enemies = [] ∧
    ((start_combat baseState ⟨[5], []⟩ "Shade").1.current_enemy).isSome
      = true ∧
    (start_combat
        (start_combat { baseState with turn_count := 30 } ⟨[5], []⟩ "Shade").1
        ⟨[0], []⟩ "Shade").1.current_enemy
      ≠ (start_combat { baseState with turn_count := 30 } ⟨[5], []⟩
          "Shade").1.current_enemy := by decide

/-- C4 amended: the lookup-or-synthesize-and-append contract holds for
items (`find_item`: a miss appends the synthesized record, and a second
case-insensitive resolution finds that record and appends nothing), but
not for enemies: `start_combat` never modifies the enemy registry. -/
theorem C4_lookup_or_synthesize :
    (∀ s name name2, lookupItem s.world.items name = none →
      pyLower name2 = pyLower name →
      (find_item s name).world.items
          = s.world.items ++ [mkDefaultItem name] ∧
      lookupItem (find_item s name).world.items name2
          = some (mkDefaultItem name) ∧
      (find_item (find_item s name) name2).world.items
          = (find_item s name).world.items) ∧
    ∀ s g name, (start_combat s g name).1.world.enemies = s.world.enemies := by
  constructor
  · intro s name name2 hmiss hcase
    have h1 : (find_item s name).world.items
        = s.world.items ++ [mkDefaultItem name] := by
      unfold find_item
      rw [hmiss]
      rfl
    have h2 : lookupItem (find_item s name).world.items name2
        = some (mkDefaultItem name) := by
      rw [h1]
      unfold lookupItem at hmiss ⊢
      simp only [hcase]
      rw [List.find?_append, hmiss]
      simp [mkDefaultItem]
    exact ⟨h1, h2, find_item_registry_stable _ _ _ h2⟩
  · intro s g name
    unfold start_combat
    cases h : lookupEnemy s.world.enemies name <;> rfl

/-! ## C2 — flee success raises -/

/-- A successful flee roll raises inside `attempt_flee`: the log line
evaluates `self.current_enemy['name']` after `current_enemy` was set to
`None`. -/
theorem attempt_flee_success_raises (s : GameState) (e : Enemy) (c : Nat)
    (ns cs : List Nat) (hc : c < 60 + s.turn_count) :
    attempt_flee s e ⟨ns, c :: cs⟩ =
      .error (.typeError "'NoneType' object is not subscriptable") := by
  unfold attempt_flee
  simp only [RNG.nextCent]
  rw [if_pos hc]

/-- C2: contrary to the claim, a successful flee attempt does not log an
event and continue in Exploration — the combat turn raises `TypeError`
(`'NoneType' object is not subscriptable`), because `attempt_flee` clears
`current_enemy` before formatting the knowledge-log message from it. -/
theorem C2_flee_success_raises (s : GameState) (e : Enemy) (c : Nat)
    (ns cs : List Nat) (hce : s.current_enemy = some e)
    (hc : c < 60 + s.turn_count) :
    combat_turn s ⟨ns, c :: cs⟩ "flee" =
      .error (.typeError "'NoneType' object is not subscriptable") := by
  rw [combat_turn_flee s e _ hce,
    attempt_flee_success_raises s e c ns cs hc]

/-- C2 witness: a concrete successful flee (draw 0 < 0.6) raises. -/
theorem C2_flee_success_raises_witness :
    combat_turn wolfState ⟨[], [0]⟩ "flee" =
      .error (.typeError "'NoneType' object is not subscriptable") :=
  C2_flee_success_raises wolfState wolf 0 [] [] rfl (by decide)

/-! ## C3 — location synthesis raises -/

/-- C3: contrary to the claim, when the location name has no
case-insensitive match in the registry, `change_location` does not degrade
to a generic/error description — it always raises `TypeError`, because it
passes `max_tokens=200` to `generate_ai_response`, which has no such
parameter, and has no handler for the resulting exception. (The degraded
error strings of `generate_ai_response` itself are never reached.) -/
theorem C3_change_location_raises (s : GameState) (g : RNG) (name : String)
    (h : lookupLocation s.world.locations name = none) :
    change_location s g name = .error (.typeError
      "generate_ai_response() got an unexpected keyword argument 'max_tokens'") := by
  unfold change_location
  dsimp only
  rw [h]

/-- C3 witness: a concrete unknown location raises. -/
theorem C3_change_location_raises_witness :
    change_location baseState ⟨[0], []⟩ "Nowhere" = .error (.typeError
      "generate_ai_response() got an unexpected keyword argument 'max_tokens'") :=
  C3_change_location_raises baseState ⟨[0], []⟩ "Nowhere" rfl

/-! ## C1 — defend and the enemy counter-attack -/

/-- C1 counterexample: with the wolf (attack 9) and the base player
(health 100, max 100, defense 4) and rolls at the bottom of their ranges,
a defend turn ends with player health 97; the claim (heal, then exactly one
enemy hit from the reduced range against the boosted defense) allows only
health 99, whatever the roll. The enemy also attacks a second time. -/
theorem C1_defend_counterexample :
    resultPlayerHealth (combat_turn wolfState ⟨[0, 0], []⟩ "defend") = 97 ∧
    (defendClaimHealths basePlayer wolf).all (fun v => v != 97) = true := by
  decide

/-- C1 amended: a defend action folds a reduced-range counter-attack
(`randint(enemy.attack/3, enemy.attack/2)` against the boosted defense)
into the defend resolution, but `combat_turn` then lets the enemy act
again: a second, normal attack (`randint(enemy.attack/2, enemy.attack)`
against the already-reverted defense) is also applied, so the player's
health is reduced by two enemy hits in the same combat turn (when neither
resolution triggers). The defense boost itself is reverted. -/
theorem C1_defend_double_attack (w : WorldData) (kb : List String)
    (p : Player) (loc : String) (tc : Nat) (cb : Bool) (e : Enemy)
    (n1 n2 : Nat) (ns cs : List Nat) (hpos : 0 < e.health)
    (hfin : (0 : Int) <
      min (p.max_health : Int) (p.health + (p.max_health / 20 : Nat))
        - (max 1 (e.attack / 3 + n1 % (e.attack / 2 + 1 - e.attack / 3)
            - (p.defense + p.defense / 2) / 2) : Nat)
        - (max 1 (e.attack / 2 + n2 % (e.attack + 1 - e.attack / 2)
            - p.defense / 2) : Nat)) :
    ∃ s' : GameState,
      combat_turn ⟨w, kb, p, loc, tc, cb, some e⟩ ⟨n1 :: n2 :: ns, cs⟩
          "defend" = .ok (s', ⟨ns, cs⟩) ∧
      s'.player.health =
        min (p.max_health : Int) (p.health + (p.max_health / 20 : Nat))
          - (max 1 (e.attack / 3 + n1 % (e.attack / 2 + 1 - e.attack / 3)
              - (p.defense + p.defense / 2) / 2) : Nat)
          - (max 1 (e.attack / 2 + n2 % (e.attack + 1 - e.attack / 2)
              - p.defense / 2) : Nat) ∧
      s'.player.defense = p.defense ∧
      s'.player.max_health = p.max_health ∧
      s'.current_enemy = some e := by
  have hpd : player_defend ⟨w, kb, p, loc, tc, cb, some e⟩ e
      ⟨n1 :: n2 :: ns, cs⟩ =
      (⟨w, kb,
        { p with
          health := min (p.max_health : Int)
              (p.health + (p.max_health / 20 : Nat))
            - (max 1 (e.attack / 3 + n1 % (e.attack / 2 + 1 - e.attack / 3)
                - (p.defense + p.defense / 2) / 2) : Nat)
          defense := p.defense + p.defense / 2 - p.defense / 2 },
        loc, tc, cb, some e⟩, ⟨n2 :: ns, cs⟩) := rfl
  have hrev : p.defense + p.defense / 2 - p.defense / 2 = p.defense := by
    omega
  rw [combat_turn_defend _ e _ rfl, hpd]
  unfold combat_turn_tail
  dsimp only
  rw [hrev]
  rw [if_neg (not_le.mpr hpos)]
  unfold enemy_attack randint RNG.nextNat
  dsimp only
  rw [if_neg (not_le.mpr hfin)]
  exact ⟨_, rfl, rfl, rfl, rfl, rfl⟩

/-- C1 amended, witness: the counterexample run, through the general
theorem — two hits (1 and 2) land, leaving health 97 with defense
reverted to 4. -/
theorem C1_defend_double_attack_witness :
    ∃ s' : GameState,
      combat_turn wolfState ⟨[0, 0], []⟩ "defend" = .ok (s', ⟨[], []⟩) ∧
      s'.player.health = 97 ∧ s'.player.defense = 4 ∧
      s'.player.max_health = 100 ∧ s'.current_enemy = some wolf := by
  obtain ⟨s', h1, h2, h3, h4, h5⟩ :=
    C1_defend_double_attack baseWorld [] basePlayer "Start" 0 true wolf
      0 0 [] [] (by decide) (by decide)
  exact ⟨s', h1, h2.trans (by decide), h3, h4, h5⟩

/-- C4 amended, witness: "Shade" at `baseState` (empty registry): the first
find appends, the second (different casing) finds without appending;
`start_combat` leaves the enemy registry unchanged. -/
theorem C4_lookup_or_synthesize_witness :
    ((find_item baseState "Shade").world.items
        = baseState.world.items ++ [mkDefaultItem "Shade"]) ∧
    lookupItem (find_item baseState "Shade").world.items "shade"
        = some (mkDefaultItem "Shade") ∧
    (find_item (find_item baseState "Shade") "shade").world.items
        = (find_item baseState "Shade").world.items ∧
    (start_combat baseState ⟨[1], []⟩ "Orc").1.world.enemies
        = baseState.world.enemies := by
  obtain ⟨h1, h2, h3⟩ :=
    C4_lookup_or_synthesize.1 baseState "Shade" "shade" (by decide) (by decide)
  exact ⟨h1, h2, h3, C4_lookup_or_synthesize.2 baseState ⟨[1], []⟩ "Orc"⟩

/-- C6 amended, witness: a trailing tag still dispatches. -/
theorem C6_empty_payload_dispatches_witness :
    (payloadOf "[COMBAT]" "Go! [COMBAT]").isSome = true :=
  C6_empty_payload_dispatches.1 "Go! [COMBAT]" (by decide)

/-! ## C7 — effect parser -/

/-- C7: using a consumable whose effect mentions heal/health heals by the
first integer in the effect text (20 when none), clamped to `max_health`,
and the report states the post-clamp actual amount; a weapon adds the "+N"
bonus (default 5) permanently to attack, keeping the item; armor likewise
(default 3) to defense. `"Heal 50 health"` parses to 50, `"+7 damage"` to
7, and `"Boost 3"` has no "+N", falling back to the defaults. -/
theorem C7_effect_extraction (w : WorldData) (kb : List String) (loc : String)
    (tc : Nat) (cb : Bool) (ce : Option Enemy) (pn : String) (h : Int)
    (m atk dfn : Nat) (rest : List Item) (sk : List String) (it : Item) :
    (pyLower it.type = "consumable" →
      (pyContains "heal" (pyLower it.effect)
        || pyContains "health" (pyLower it.effect)) = true →
      use_item ⟨w, kb, ⟨pn, h, m, atk, dfn, it :: rest, sk⟩, loc, tc, cb, ce⟩
          it.name =
        (⟨w, kb, ⟨pn, min (m : Int) (h + ((firstNat it.effect).getD 20)), m,
            atk, dfn, rest, sk⟩, loc, tc, cb, ce⟩,
         ["You used " ++ it.name ++ " and recovered "
            ++ intToStr (min (m : Int) (h + ((firstNat it.effect).getD 20)) - h)
            ++ " health!"])) ∧
    (pyLower it.type = "weapon" →
      use_item ⟨w, kb, ⟨pn, h, m, atk, dfn, it :: rest, sk⟩, loc, tc, cb, ce⟩
          it.name =
        (⟨w, kb, ⟨pn, h, m, atk + (plusNat it.effect).getD 5, dfn,
            it :: rest, sk⟩, loc, tc, cb, ce⟩,
         ["You equip the " ++ it.name ++ ".",
          "Your attack increases from " ++ natToStr atk ++ " to "
            ++ natToStr (atk + (plusNat it.effect).getD 5) ++ "!"])) ∧
    (pyLower it.type = "armor" →
      use_item ⟨w, kb, ⟨pn, h, m, atk, dfn, it :: rest, sk⟩, loc, tc, cb, ce⟩
          it.name =
        (⟨w, kb, ⟨pn, h, m, atk, dfn + (plusNat it.effect).getD 3,
            it :: rest, sk⟩, loc, tc, cb, ce⟩,
         ["You equip the " ++ it.name ++ ".",
          "Your defense increases from " ++ natToStr dfn ++ " to "
            ++ natToStr (dfn + (plusNat it.effect).getD 3) ++ "!"])) ∧
    firstNat "Heal 50 health" = some 50 ∧
    plusNat "+7 damage" = some 7 ∧
    plusNat "Boost 3" = none := by
  refine ⟨?_, ?_, ?_, by decide, by decide, by decide⟩
  · intro hty hh
    unfold use_item
    dsimp only
    rw [show ((it :: rest).findIdx?
        fun x => pyLower x.name == pyLower it.name) = some 0 from by simp]
    dsimp only
    rw [show ((it :: rest)[0]? : Option Item) = some it from by simp]
    dsimp only
    rw [hty]
    rw [hh]
    rfl
  · intro hty
    unfold use_item
    dsimp only
    rw [show ((it :: rest).findIdx?
        fun x => pyLower x.name == pyLower it.name) = some 0 from by simp]
    dsimp only
    rw [show ((it :: rest)[0]? : Option Item) = some it from by simp]
    dsimp only
    rw [hty]
    rfl
  · intro hty
    unfold use_item
    dsimp only
    rw [show ((it :: rest).findIdx?
        fun x => pyLower x.name == pyLower it.name) = some 0 from by simp]
    dsimp only
    rw [show ((it :: rest)[0]? : Option Item) = some it from by simp]
    dsimp only
    rw [hty]
    rfl

/-- C7 witness: concrete uses — "Heal 50 health" heals 50 at health 40,
but only 20 (post-clamp actual) at health 80; "+7 damage" takes attack
10 → 17; "Boost 3" on a weapon falls back to +5 (10 → 15) and on armor to
+3 (4 → 7). -/
theorem C7_effect_extraction_witness :
    use_item ⟨baseWorld, [], ⟨"P", 40, 100, 10, 4, [healPotion50], []⟩,
        "Start", 0, false, none⟩ "Potion" =
      (⟨baseWorld, [], ⟨"P", 90, 100, 10, 4, [], []⟩,
          "Start", 0, false, none⟩,
       ["You used Potion and recovered 50 health!"]) ∧
    use_item ⟨baseWorld, [], ⟨"P", 80, 100, 10, 4, [healPotion50], []⟩,
        "Start", 0, false, none⟩ "Potion" =
      (⟨baseWorld, [], ⟨"P", 100, 100, 10, 4, [], []⟩,
          "Start", 0, false, none⟩,
       ["You used Potion and recovered 20 health!"]) ∧
    use_item ⟨baseWorld, [], ⟨"P", 40, 100, 10, 4, [sword7], []⟩,
        "Start", 0, false, none⟩ "Sword" =
      (⟨baseWorld, [], ⟨"P", 40, 100, 17, 4, [sword7], []⟩,
          "Start", 0, false, none⟩,
       ["You equip the Sword.", "Your attack increases from 10 to 17!"]) ∧
    use_item ⟨baseWorld, [], ⟨"P", 40, 100, 10, 4, [boostClub], []⟩,
        "Start", 0, false, none⟩ "Club" =
      (⟨baseWorld, [], ⟨"P", 40, 100, 15, 4, [boostClub], []⟩,
          "Start", 0, false, none⟩,
       ["You equip the Club.", "Your attack increases from 10 to 15!"]) ∧
    use_item ⟨baseWorld, [], ⟨"P", 40, 100, 10, 4, [boostPlate], []⟩,
        "Start", 0, false, none⟩ "Plate" =
      (⟨baseWorld, [], ⟨"P", 40, 100, 10, 7, [boostPlate], []⟩,
          "Start", 0, false, none⟩,
       ["You equip the Plate.", "Your defense increases from 4 to 7!"]) := by
  refine ⟨?_, ?_, ?_, ?_, ?_⟩
  · exact (C7_effect_extraction baseWorld [] "Start" 0 false none "P" 40 100
      10 4 [] [] healPotion50).1 (by decide) (by decide)
  · exact (C7_effect_extraction baseWorld [] "Start" 0 false none "P" 80 100
      10 4 [] [] healPotion50).1 (by decide) (by decide)
  · exact (C7_effect_extraction baseWorld [] "Start" 0 false none "P" 40 100
      10 4 [] [] sword7).2.1 (by decide)
  · exact (C7_effect_extraction baseWorld [] "Start" 0 false none "P" 40 100
      10 4 [] [] boostClub).2.1 (by decide)
  · exact (C7_effect_extraction baseWorld [] "Start" 0 false none "P" 40 100
      10 4 [] [] boostPlate).2.2.1 (by decide)

/-! ## C8 — knowledge log cap -/

/-- C8: after every insertion the log holds at most 50 entries; the
result is a suffix of the old log plus the new entry (so eviction is
oldest-first and the surviving entries keep their relative order), and
the newly inserted entry is always present, as the last element. -/
theorem C8_knowledge_cap (s : GameState) (event : String) :
    (add_to_knowledge_base s event).knowledge_base.length ≤ 50 ∧
    (add_to_knowledge_base s event).knowledge_base.getLast? =
      some ("Turn " ++ natToStr s.turn_count ++ ": " ++ event) ∧
    (add_to_knowledge_base s event).knowledge_base <:+
      (s.knowledge_base
        ++ ["Turn " ++ natToStr s.turn_count ++ ": " ++ event]) := by
  unfold add_to_knowledge_base
  dsimp only
  set f := "Turn " ++ natToStr s.turn_count ++ ": " ++ event with hf
  by_cases hlen : 50 < (s.knowledge_base ++ [f]).length
  · rw [if_pos hlen]
    refine ⟨?_, ?_, ?_⟩
    · rw [List.length_drop]
      omega
    · rw [List.drop_append_of_le_length (by
        simp only [List.length_append, List.length_cons, List.length_nil]
          at hlen ⊢
        omega)]
      exact List.getLast?_concat _
    · exact List.drop_suffix _ _
  · rw [if_neg hlen]
    simp only [List.length_append, List.length_cons, List.length_nil] at hlen
    exact ⟨by simp only [List.length_append, List.length_cons,
      List.length_nil]; omega, List.getLast?_concat _, List.suffix_refl _⟩

/-! ## C10 — the turn counter during combat -/

theorem okPair_inj {p q : GameState × RNG}
    (h : (Except.ok p : Except PyError (GameState × RNG)) = .ok q) :
    p = q := by
  injection h

theorem turnCount_start_combat (s : GameState) (g : RNG) (n : String) :
    (start_combat s g n).1.turn_count = s.turn_count := by
  unfold start_combat
  split <;> rfl

theorem turnCount_find_item (s : GameState) (n : String) :
    (find_item s n).turn_count = s.turn_count := by
  unfold find_item
  split <;> rfl

theorem turnCount_use_item (s : GameState) (n : String) :
    (use_item s n).1.turn_count = s.turn_count := by
  unfold use_item
  repeat' split
  all_goals rfl

theorem turnCount_resolve_combat (s : GameState) (e : Enemy) (g : RNG)
    (won : Bool) :
    (resolve_combat s e g won).1.turn_count = s.turn_count := by
  unfold resolve_combat
  split
  · dsimp only
    split <;> rfl
  · dsimp only
    repeat' split
    all_goals rfl

theorem turnCount_attempt_flee (s : GameState) (e : Enemy) (g : RNG)
    (p : GameState × RNG) (h : attempt_flee s e g = .ok p) :
    p.1.turn_count = s.turn_count := by
  unfold attempt_flee at h
  dsimp only at h
  split at h
  · exact absurd h (by simp)
  · rw [← okPair_inj h]

theorem turnCount_change_location (s : GameState) (g : RNG) (n : String)
    (p : GameState × RNG) (h : change_location s g n = .ok p) :
    p.1.turn_count = s.turn_count := by
  unfold change_location at h
  dsimp only at h
  split at h
  · rw [← okPair_inj h]
    rfl
  · exact absurd h (by simp)

theorem turnCount_combat_turn_tail (s : GameState) (g : RNG)
    (p : GameState × RNG) (h : combat_turn_tail s g = .ok p) :
    p.1.turn_count = s.turn_count := by
  unfold combat_turn_tail at h
  split at h
  · exact absurd h (by simp)
  · rename_i e he
    split at h
    · rw [← okPair_inj h]
      exact turnCount_resolve_combat _ _ _ _
    · dsimp only at h
      split at h
      · rw [← okPair_inj h]
        exact (turnCount_resolve_combat _ _ _ _).trans rfl
      · rw [← okPair_inj h]
        rfl

theorem turnCount_tags (s : GameState) (g : RNG) (r : String)
    (p : GameState × RNG) (h : process_response_tags s g r = .ok p) :
    p.1.turn_count = s.turn_count := by
  unfold process_response_tags at h
  dsimp only at h
  split at h
  · exact absurd h (by simp)
  · rename_i p2 heq2
    rw [← okPair_inj h]
    have h2 : p2.1.turn_count = s.turn_count := by
      split at heq2
      · rename_i n hn
        refine (turnCount_change_location _ _ _ _ heq2).trans ?_
        split
        · rw [turnCount_find_item]
          split
          · rw [turnCount_start_combat]
          · rfl
        · split
          · rw [turnCount_start_combat]
          · rfl
      · rw [← okPair_inj heq2]
        dsimp only
        split
        · rw [turnCount_find_item]
          split
          · rw [turnCount_start_combat]
          · rfl
        · split
          · rw [turnCount_start_combat]
          · rfl
    dsimp only
    split
    · exact h2
    · exact h2

/-- C10: no combat action changes the turn counter (so the flee chance
`0.6 + turn_count/100` and the `"Turn N:"` log prefixes stay frozen for
the whole encounter), while every processed exploration action increments
it by exactly one, whatever directives the response carries. -/
theorem C10_turn_counter :
    (∀ s g action p, combat_turn s g action = .ok p →
      p.1.turn_count = s.turn_count) ∧
    ∀ s g response p, process_player_action s g response = .ok p →
      p.1.turn_count = s.turn_count + 1 := by
  constructor
  · intro s g action p h
    unfold combat_turn at h
    split at h
    · exact absurd h (by simp)
    · rename_i e he
      dsimp only at h
      split at h
      · exact (turnCount_combat_turn_tail _ _ _ h).trans rfl
      · split at h
        · exact (turnCount_combat_turn_tail _ _ _ h).trans
            (turnCount_use_item _ _)
        · split at h
          · exact (turnCount_combat_turn_tail _ _ _ h).trans rfl
          · split at h
            · split at h
              · exact absurd h (by simp)
              · rename_i q heq
                exact (turnCount_combat_turn_tail _ _ _ h).trans
                  (turnCount_attempt_flee _ _ _ _ heq)
            · rw [← okPair_inj h]
  · intro s g response p h
    unfold process_player_action at h
    exact turnCount_tags _ _ _ _ h

/-- C10 witness: a concrete combat attack keeps `turn_count` at 0, and a
concrete tag-free exploration action takes it from 0 to 1. -/
theorem C10_turn_counter_witness :
    (({ wolfState with
         player := { basePlayer with health := 98 }
         current_enemy := some { wolf with health := 46 } },
       (⟨[], []⟩ : RNG)) : GameState × RNG).1.turn_count
      = wolfState.turn_count ∧
    (({ baseState with turn_count := 1 },
       (⟨[], []⟩ : RNG)) : GameState × RNG).1.turn_count
      = baseState.turn_count + 1 :=
  ⟨C10_turn_counter.1 wolfState ⟨[0], [99]⟩ "attack" _ (by decide),
   C10_turn_counter.2 baseState ⟨[], []⟩ "Hello." _ (by decide)⟩

/-! ## C9 — player health invariant -/

theorem inv_resolve_victory (s : GameState) (e : Enemy) (g : RNG)
    (h0 : 0 ≤ s.player.health) :
    stateInv (resolve_combat s e g true).1 ∧
    (resolve_combat s e g true).1.player.max_health
      = s.player.max_health := by
  unfold resolve_combat
  dsimp only
  by_cases hc : (g.nextCent).1 < 60
  · rw [if_pos hc]
    refine ⟨⟨?_, ?_, trivial⟩, rfl⟩
    · show 0 ≤ min ((s.player.max_health : Nat) : Int)
        (s.player.health + ((s.player.max_health / 10 : Nat) : Int))
      omega
    · show min ((s.player.max_health : Nat) : Int)
        (s.player.health + ((s.player.max_health / 10 : Nat) : Int))
        ≤ ((s.player.max_health : Nat) : Int)
      omega
  · rw [if_neg hc]
    refine ⟨⟨?_, ?_, trivial⟩, rfl⟩
    · show 0 ≤ min ((s.player.max_health : Nat) : Int)
        (s.player.health + ((s.player.max_health / 10 : Nat) : Int))
      omega
    · show min ((s.player.max_health : Nat) : Int)
        (s.player.health + ((s.player.max_health / 10 : Nat) : Int))
        ≤ ((s.player.max_health : Nat) : Int)
      omega

theorem inv_resolve_defeat (s : GameState) (e : Enemy) (g : RNG) :
    stateInv (resolve_combat s e g false).1 ∧
    (resolve_combat s e g false).1.player.max_health
      = s.player.max_health := by
  unfold resolve_combat
  dsimp only
  rw [if_neg (by decide : ¬(false = true))]
  dsimp only
  repeat' split
  all_goals refine ⟨⟨?_, ?_, trivial⟩, rfl⟩
  all_goals first
    | (show (0 : Int) ≤ ((s.player.max_health / 4 : Nat) : Int)
       omega)
    | (show ((s.player.max_health / 4 : Nat) : Int)
          ≤ ((s.player.max_health : Nat) : Int)
       omega)

theorem inv_use_item (s : GameState) (n : String)
    (h0 : 0 ≤ s.player.health)
    (h1 : s.player.health ≤ (s.player.max_health : Int)) :
    0 ≤ (use_item s n).1.player.health ∧
    (use_item s n).1.player.health
      ≤ ((use_item s n).1.player.max_health : Int) ∧
    (use_item s n).1.player.max_health = s.player.max_health ∧
    (use_item s n).1.current_enemy = s.current_enemy := by
  unfold use_item
  repeat' split
  all_goals refine ⟨?_, ?_, rfl, rfl⟩
  all_goals first
    | exact h0
    | exact h1
    | exact le_min (by omega) (by omega)
    | exact min_le_left _ _

theorem attempt_flee_ok (s : GameState) (e : Enemy) (g : RNG)
    (q : GameState × RNG) (h : attempt_flee s e g = .ok q) :
    q.1.player.health ≤ s.player.health ∧
    q.1.player.max_health = s.player.max_health ∧
    q.1.current_enemy = s.current_enemy := by
  unfold attempt_flee at h
  dsimp only at h
  split at h
  · exact absurd h (by simp)
  · rw [← okPair_inj h]
    exact ⟨sub_le_self _ (Int.natCast_nonneg _), rfl, rfl⟩

theorem inv_combat_turn_tail (s : GameState) (g : RNG)
    (p : GameState × RNG) (h : combat_turn_tail s g = .ok p)
    (hle : s.player.health ≤ (s.player.max_health : Int))
    (halt : 0 ≤ s.player.health ∨ enemyAlive s.current_enemy) :
    stateInv p.1 ∧ p.1.player.max_health = s.player.max_health := by
  unfold combat_turn_tail at h
  split at h
  · exact absurd h (by simp)
  · rename_i e he
    split at h
    · rename_i hdead
      have h0 : 0 ≤ s.player.health := by
        rcases halt with h0 | ha
        · exact h0
        · rw [he] at ha
          exact absurd hdead (not_le.mpr ha)
      rw [← okPair_inj h]
      exact inv_resolve_victory s e g h0
    · rename_i halive
      dsimp only at h
      split at h
      · rw [← okPair_inj h]
        exact inv_resolve_defeat _ e _
      · rename_i hplayer
        rw [← okPair_inj h]
        refine ⟨⟨le_of_lt (not_le.mp hplayer), ?_, ?_⟩, rfl⟩
        · exact le_trans (sub_le_self _ (Int.natCast_nonneg _)) hle
        · show enemyAlive s.current_enemy
          rw [he]
          exact not_le.mp halive

theorem healthMax_start_combat (s : GameState) (g : RNG) (n : String) :
    healthMax (start_combat s g n).1 = healthMax s := by
  unfold start_combat
  split <;> rfl

theorem healthMax_find_item (s : GameState) (n : String) :
    healthMax (find_item s n) = healthMax s := by
  unfold find_item
  split <;> rfl

theorem healthMax_change_location (s : GameState) (g : RNG) (n : String)
    (p : GameState × RNG) (h : change_location s g n = .ok p) :
    healthMax p.1 = healthMax s := by
  unfold change_location at h
  dsimp only at h
  split at h
  · rw [← okPair_inj h]
    rfl
  · exact absurd h (by simp)

theorem healthMax_tags (s : GameState) (g : RNG) (r : String)
    (p : GameState × RNG) (h : process_response_tags s g r = .ok p) :
    healthMax p.1 = healthMax s := by
  unfold process_response_tags at h
  dsimp only at h
  split at h
  · exact absurd h (by simp)
  · rename_i p2 heq2
    rw [← okPair_inj h]
    have h2 : healthMax p2.1 = healthMax s := by
      split at heq2
      · rename_i n hn
        refine (healthMax_change_location _ _ _ _ heq2).trans ?_
        split
        · rw [healthMax_find_item]
          split
          · rw [healthMax_start_combat]
          · rfl
        · split
          · rw [healthMax_start_combat]
          · rfl
      · rw [← okPair_inj heq2]
        dsimp only
        split
        · rw [healthMax_find_item]
          split
          · rw [healthMax_start_combat]
          · rfl
        · split
          · rw [healthMax_start_combat]
          · rfl
    dsimp only
    split
    · exact h2
    · exact h2

/-- C9: every combat turn that completes preserves the invariant that the
player's health lies in `0..max_health` (and that a live session's enemy
has positive health), and never changes `max_health`; every processed
exploration action leaves both health and max_health untouched (so
max_health is constant after creation and health stays in range between
processed actions). -/
theorem C9_health_invariant :
    (∀ s g action p, combat_turn s g action = .ok p → stateInv s →
      stateInv p.1 ∧ p.1.player.max_health = s.player.max_health) ∧
    ∀ s g response p, process_player_action s g response = .ok p →
      healthMax p.1 = healthMax s := by
  constructor
  · intro s g action p h hinv
    obtain ⟨hi0, hi1, hien⟩ := hinv
    unfold combat_turn at h
    split at h
    · exact absurd h (by simp)
    · rename_i e he
      dsimp only at h
      split at h
      · have ht := inv_combat_turn_tail _ _ _ h hi1 (Or.inl hi0)
        exact ⟨ht.1, ht.2⟩
      · split at h
        · obtain ⟨u0, u1, u2, u3⟩ :=
            inv_use_item s (pyStrip (strDrop action 4)) hi0 hi1
          have ht := inv_combat_turn_tail _ _ _ h u1 (Or.inl u0)
          exact ⟨ht.1, ht.2.trans u2⟩
        · split at h
          · have hd : (player_defend s e g).1.player.health
                ≤ ((player_defend s e g).1.player.max_health : Int) :=
              le_trans (sub_le_self _ (Int.natCast_nonneg _))
                (min_le_left _ _)
            have ht := inv_combat_turn_tail _ _ _ h hd (Or.inr hien)
            exact ⟨ht.1, ht.2⟩
          · split at h
            · split at h
              · exact absurd h (by simp)
              · rename_i q heq
                obtain ⟨f1, f2, f3⟩ := attempt_flee_ok _ _ _ _ heq
                have hq1 : q.1.player.health
                    ≤ (q.1.player.max_health : Int) := by
                  rw [f2]
                  exact le_trans f1 hi1
                have hq2 : enemyAlive q.1.current_enemy := by
                  rw [f3]
                  exact hien
                have ht := inv_combat_turn_tail _ _ _ h hq1 (Or.inr hq2)
                exact ⟨ht.1, ht.2.trans f2⟩
            · rw [← okPair_inj h]
              exact ⟨⟨hi0, hi1, hien⟩, rfl⟩
  · intro s g response p h
    unfold process_player_action at h
    have ht := healthMax_tags _ _ _ _ h
    exact ht


/-- C9 witness: a concrete attack turn from `wolfState` (which satisfies
the invariant) lands in a state satisfying it, with max_health still 100;
a concrete tag-free exploration action leaves health and max_health
unchanged. -/
theorem C9_health_invariant_witness :
    (stateInv ({ wolfState with
        player := { basePlayer with health := 98 }
        current_enemy := some { wolf with health := 46 } }) ∧
      ({ wolfState with
        player := { basePlayer with health := 98 }
        current_enemy := some { wolf with health := 46 } } :
          GameState).player.max_health = wolfState.player.max_health) ∧
    healthMax { baseState with turn_count := 1 } = healthMax baseState := by
  constructor
  · exact C9_health_invariant.1 wolfState ⟨[0], [99]⟩ "attack"
      ({ wolfState with
          player := { basePlayer with health := 98 }
          current_enemy := some { wolf with health := 46 } }, ⟨[], []⟩)
      (by decide) (by decide)
  · exact C9_health_invariant.2 baseState ⟨[], []⟩ "Hello."
      ({ baseState with turn_count := 1 }, ⟨[], []⟩) (by decide)

end AIRPG
